import Mathlib

/-!
Verification development for the LLM-SQL repository (`src/sql_tool.py`).

The program is a thin orchestration layer: a language model is asked to answer
a natural-language question about a benchmark database, optionally requesting
the single registered tool `query_perfbench_db`; the tool executes model-written
SQL against a SQLite file and the final model reply is normalized into the
response contract `{results, response, sql_query}`.

The embedding below models:
  * JSON values (`JValue`) as produced by Python's `json.loads`, with Python
    `dict` semantics for objects (insertion order, first-key lookup);
  * the semantics of the Python operations the code applies to decoded values
    (`in`, subscripting, `dict.pop`, item assignment), including the
    `TypeError` / `AttributeError` / `KeyError` they raise on non-dict values;
  * `query_perfbench_db` (database adapter), `call_function` (tool dispatch),
    the tool-dispatch loop and the response-normalization tail of `run_query`,
    and the database check of the `__main__` startup block.

External effects are modelled as inputs: the filesystem as an existence
predicate on paths, the SQLite engine as a function from SQL text to an
execution outcome (`cursor.description` and the fetched rows, or an error
caught as `sqlite3.Error`), the two chat-completion calls as the tool calls
of the first reply and the decoded content of the second.
-/

/-- A JSON value as returned by Python's `json.loads`: objects are key/value
lists in insertion order (keys are unique when produced by `json.loads`). -/
inductive JValue where
  | jnull
  | jbool (b : Bool)
  | jnum (n : Int)
  | jstr (s : String)
  | jarr (xs : List JValue)
  | jobj (fields : List (String × JValue))

/-- Python exceptions that the modelled code can raise. -/
inductive PyError where
  | typeError
  | attributeError
  | keyError
  | fileNotFound
  | jsonDecodeError
deriving DecidableEq

/-- Python `d[k]` read on a dict: value of the first entry with key `k`. -/
def dictLookup : List (String × JValue) → String → Option JValue
  | [], _ => none
  | p :: rest, k => if p.1 == k then some p.2 else dictLookup rest k

/-- Python `k in d` on a dict. -/
def dictHasKey (d : List (String × JValue)) (k : String) : Bool :=
  (dictLookup d k).isSome

/-- Python `d[k] = v` on a dict: update in place if the key exists, else
append, preserving insertion order. -/
def dictSet : List (String × JValue) → String → JValue → List (String × JValue)
  | [], k, v => [(k, v)]
  | p :: rest, k, v => if p.1 == k then (k, v) :: rest else p :: dictSet rest k v

/-- Key removal, as performed by Python `dict.pop`. -/
def dictRemove : List (String × JValue) → String → List (String × JValue)
  | [], _ => []
  | p :: rest, k => if p.1 == k then dictRemove rest k else p :: dictRemove rest k

/-- Python `dict(pairs)`: left-to-right insertion with `dictSet` semantics,
so a repeated key keeps its first position but the last value. -/
def pyDict (ps : List (String × JValue)) : List (String × JValue) :=
  ps.foldl (fun d p => dictSet d p.1 p.2) []

/-- Python substring test `k in s` for strings. -/
def strContains (s k : String) : Bool :=
  if k == "" then true else (s.splitOn k).length > 1

/-- Python `k in v` for a decoded JSON value `v` and a string `k`:
key test on dicts, substring test on strings, membership on lists, and a
`TypeError` on `int`, `bool` and `None` (not iterable). -/
def pyContains (v : JValue) (k : String) : Except PyError Bool :=
  match v with
  | .jobj d => .ok (dictHasKey d k)
  | .jarr xs => .ok (xs.any (fun x => match x with | .jstr s => s == k | _ => false))
  | .jstr s => .ok (strContains s k)
  | _ => .error .typeError

/-- Python `v[k]` for a string subscript `k`: dict lookup (raising `KeyError`
when absent), `TypeError` on every other value. -/
def pyGetItem (v : JValue) (k : String) : Except PyError JValue :=
  match v with
  | .jobj d =>
    match dictLookup d k with
    | some x => .ok x
    | none => .error .keyError
  | _ => .error .typeError

/-- Python `v.pop(k)`: on a dict, the removed value and the shrunken dict;
`TypeError` on a list (whose `pop` wants an integer index), `AttributeError`
on strings, numbers, booleans and `None` (no `pop` attribute). -/
def pyPop (v : JValue) (k : String) : Except PyError (JValue × JValue) :=
  match v with
  | .jobj d =>
    match dictLookup d k with
    | some x => .ok (x, .jobj (dictRemove d k))
    | none => .error .keyError
  | .jarr _ => .error .typeError
  | _ => .error .attributeError

/-- Python `v[k] = x` for a string key: only dicts support it. -/
def pySetItem (v : JValue) (k : String) (x : JValue) : Except PyError JValue :=
  match v with
  | .jobj d => .ok (.jobj (dictSet d k x))
  | _ => .error .typeError

/-- String escaping of `json.dumps` (the cases exercised here). -/
def jsonEscape (s : String) : String :=
  s.data.foldl (fun acc c =>
    acc ++ (if c = '"' then "\\\"" else if c = '\\' then "\\\\"
      else if c = '\n' then "\\n" else if c = '\t' then "\\t"
      else if c = '\r' then "\\r" else String.singleton c)) ""

mutual

/-- Python `json.dumps` with its default separators. -/
def jsonDumps : JValue → String
  | .jnull => "null"
  | .jbool b => if b then "true" else "false"
  | .jnum n => toString n
  | .jstr s => "\"" ++ jsonEscape s ++ "\""
  | .jarr xs => "[" ++ jsonDumpsList xs ++ "]"
  | .jobj d => "\x7b" ++ jsonDumpsFields d ++ "\x7d"

def jsonDumpsList : List JValue → String
  | [] => ""
  | [x] => jsonDumps x
  | x :: y :: xs => jsonDumps x ++ ", " ++ jsonDumpsList (y :: xs)

def jsonDumpsFields : List (String × JValue) → String
  | [] => ""
  | [p] => "\"" ++ jsonEscape p.1 ++ "\": " ++ jsonDumps p.2
  | p :: q :: ps =>
    "\"" ++ jsonEscape p.1 ++ "\": " ++ jsonDumps p.2 ++ ", " ++ jsonDumpsFields (q :: ps)

end

/-- `json.dumps` applied to the value returned by `call_function`
(`None` serializes as `null`). -/
def dumpOptResult : Option JValue → String
  | none => "null"
  | some v => jsonDumps v

/-- Outcome of `cursor.execute` + `cursor.description` + `cursor.fetchall`
for one SQL text: either an error that `sqlite3.Error` catches, or the
column description (`none` for statements that return no result set, e.g.
DDL/DML, where sqlite leaves `cursor.description = None`) and the rows. -/
inductive EngineResult where
  | ok (description : Option (List String)) (rows : List (List JValue))
  | err (msg : String)

/-- Whether the per-call `sqlite3.connect` connection was released. -/
inductive ConnState where
  | notOpened
  | closed
deriving DecidableEq

/-- The request-independent environment: filesystem existence checks, the
candidate database paths, and the SQLite engine. -/
structure Env where
  fsExists : String → Bool
  paths : List String
  engine : String → EngineResult

/-- The `possible_paths` list built in `query_perfbench_db` (and repeated in
the `__main__` block): script directory, working directory, then the original
absolute path, in that fixed order. -/
def possible_paths (scriptDir cwd : String) : List String :=
  [scriptDir ++ "/data/perfbench.db",
   cwd ++ "/data/perfbench.db",
   "/Users/nofilamer/LINUX-MACHINE/GITHUB/LLM-SQL/data/perfbench.db"]

/-- `query_perfbench_db(query)`: resolve the database path by scanning the
candidates in order (raising `FileNotFoundError` if none exists, before any
connection is opened), connect, execute, convert the rows to dicts keyed by
the cursor description, catching `sqlite3.Error` into an `error` payload; the
`finally` clause closes the connection on each path that opened it.  Iterating
a `None` description and executing a non-string both raise uncaught errors. -/
def query_perfbench_db (env : Env) (q : JValue) : Except PyError JValue × ConnState :=
  match env.paths.find? env.fsExists with
  | none => (.error .fileNotFound, .notOpened)
  | some _ =>
    match q with
    | .jstr s =>
      match env.engine s with
      | .err m => (.ok (.jobj [("error", .jstr m)]), .closed)
      | .ok none _ => (.error .typeError, .closed)
      | .ok (some cols) rows =>
        (.ok (.jobj [("results",
          .jarr (rows.map (fun r => .jobj (pyDict (cols.zip r)))))]), .closed)
    | _ => (.error .typeError, .closed)

/-- `call_function(name, args)`: dispatch by name.  For the registered name it
calls `query_perfbench_db(**args)`, which requires `args` to be a mapping
whose keys are exactly the parameter name `query`; every other name falls off
the end of the function and returns `None`. -/
def call_function (env : Env) (name : String) (args : JValue) : Except PyError (Option JValue) :=
  if name == "query_perfbench_db" then
    match args with
    | .jobj d =>
      if dictHasKey d "query" && d.all (fun p => p.1 == "query") then
        match (query_perfbench_db env ((dictLookup d "query").getD .jnull)).1 with
        | .ok v => .ok (some v)
        | .error e => .error e
      else .error .typeError
    | _ => .error .typeError
  else .ok none

/-- One tool call of the first completion; `arguments` is the outcome of
`json.loads(tool_call.function.arguments)`. -/
structure ToolCall where
  id : String
  name : String
  arguments : Except Unit JValue

/-- A transcript message appended by the tool-dispatch loop. -/
structure Message where
  role : String
  tool_call_id : Option String
  content : String

/-- The tool-dispatch loop of `run_query`: for each tool call, record the SQL
text when the call is to `query_perfbench_db` and carries a `query` argument,
invoke `call_function`, and append the serialized result as a tool message.
Returns the last captured SQL and the appended messages. -/
def dispatchLoop (env : Env) :
    List ToolCall → JValue → List Message → Except PyError (JValue × List Message)
  | [], sql, msgs => .ok (sql, msgs)
  | tc :: rest, sql, msgs => do
    let args ← match tc.arguments with
      | .error _ => Except.error PyError.jsonDecodeError
      | .ok a => Except.ok a
    let sql2 ← if tc.name == "query_perfbench_db" then do
        let h ← pyContains args "query"
        if h then pyGetItem args "query" else Except.ok sql
      else Except.ok sql
    let result ← call_function env tc.name args
    dispatchLoop env rest sql2 (msgs ++ [⟨"tool", some tc.id, dumpOptResult result⟩])

/-- The normalization applied by `run_query` to the decoded final reply:
rename `explanation` to `response` when `response` is absent, else fall back
to `result`, else to a fixed message; default `results` to `[]`; and
unconditionally store the captured SQL under `sql_query`.  Each step uses the
Python operations above, so non-dict values raise. -/
def normalizeDecoded (v : JValue) (sql : JValue) : Except PyError JValue := do
  let hasExp ← pyContains v "explanation"
  let cond1 ← if hasExp then do
      let hasResp ← pyContains v "response"
      Except.ok (!hasResp)
    else Except.ok false
  let v1 ← if cond1 then do
      let pr ← pyPop v "explanation"
      pySetItem pr.2 "response" pr.1
    else Except.ok v
  let hasResp2 ← pyContains v1 "response"
  let v2 ← if !hasResp2 then do
      let hasRes ← pyContains v1 "result"
      if hasRes then do
        let pr ← pyPop v1 "result"
        pySetItem pr.2 "response" pr.1
      else pySetItem v1 "response" (.jstr "Query completed successfully.")
    else Except.ok v1
  let hasResults ← pyContains v2 "results"
  let v3 ← if !hasResults then pySetItem v2 "results" (.jarr []) else Except.ok v2
  pySetItem v3 "sql_query" sql

/-- Dict-level restatement of `normalizeDecoded` on object inputs, used by the
proofs below: the same four steps expressed directly on the key/value list. -/
def normDict (d : List (String × JValue)) (sql : JValue) : List (String × JValue) :=
  let d1 := if dictHasKey d "explanation" && !dictHasKey d "response"
    then dictSet (dictRemove d "explanation") "response" ((dictLookup d "explanation").getD .jnull)
    else d
  let d2 := if !dictHasKey d1 "response" then
      if dictHasKey d1 "result"
      then dictSet (dictRemove d1 "result") "response" ((dictLookup d1 "result").getD .jnull)
      else dictSet d1 "response" (.jstr "Query completed successfully.")
    else d1
  let d3 := if !dictHasKey d2 "results" then dictSet d2 "results" (.jarr []) else d2
  dictSet d3 "sql_query" sql

/-- The `try/except json.JSONDecodeError` tail of `run_query`: a decode
failure yields the fixed error object, a decoded value is normalized. -/
def normalizeReply (decoded : Except Unit JValue) (sql : JValue) : Except PyError JValue :=
  match decoded with
  | .error _ =>
    .ok (.jobj [("results", .jarr []),
                ("response", .jstr "Error processing results"),
                ("sql_query", sql)])
  | .ok v => normalizeDecoded v sql

/-- `run_query` after the external completion calls: run the tool-dispatch
loop with `executed_sql_query` starting as `None`, then normalize the decoded
content of the second completion. -/
def run_query (env : Env) (toolCalls : List ToolCall) (finalContent : Except Unit JValue) :
    Except PyError (JValue × List Message) := do
  let sm ← dispatchLoop env toolCalls .jnull []
  let resp ← normalizeReply finalContent sm.1
  Except.ok (resp, sm.2)

/-- Outcome of the database check in the `__main__` block. -/
structure StartupReport where
  dbPath : Option String
  warned : Bool
  serverStarted : Bool

/-- The `__main__` startup block: scan the same candidate paths; when none is
found, print a warning and carry on; otherwise test the connection with a
COUNT query, downgrading any failure to a warning; in every case the server
is started afterwards. -/
def mainStartup (env : Env) : StartupReport :=
  match env.paths.find? env.fsExists with
  | none => { dbPath := none, warned := true, serverStarted := true }
  | some p =>
    match env.engine "SELECT COUNT(*) FROM perf_data" with
    | .ok _ _ => { dbPath := some p, warned := false, serverStarted := true }
    | .err _ => { dbPath := some p, warned := true, serverStarted := true }

/-- Observation: field lookup on a response value (`none` on non-objects). -/
def jLookup (v : JValue) (k : String) : Option JValue :=
  match v with
  | .jobj d => dictLookup d k
  | _ => none

/-- Observation: a response value is well-formed when it is an object carrying
both the `results` and the `response` key. -/
def jWellFormed (v : JValue) : Bool :=
  match v with
  | .jobj d => dictHasKey d "results" && dictHasKey d "response"
  | _ => false

/-- Observation: a normalization outcome that did not raise and is
well-formed. -/
def wellFormedResponse (r : Except PyError JValue) : Bool :=
  match r with
  | .ok v => jWellFormed v
  | .error _ => false

/-- Field lookup through a normalization outcome. -/
def jLookupE (r : Except PyError JValue) (k : String) : Option JValue :=
  match r with
  | .ok v => jLookup v k
  | .error _ => none

/-- From the claim wording: the `query` argument carried by a tool
invocation. -/
def queryArgOf (tc : ToolCall) : JValue :=
  match tc.arguments with
  | .ok (.jobj d) => (dictLookup d "query").getD .jnull
  | _ => .jnull

/-- From the claim wording: the last `query_perfbench_db` invocation of the
request. -/
def lastDbToolCall (tcs : List ToolCall) : Option ToolCall :=
  (tcs.filter (fun tc => tc.name == "query_perfbench_db")).getLast?

/-- From the claim wording: the SQL captured during dispatch — the `query`
argument of the last `query_perfbench_db` invocation, with `dflt` when there
is none. -/
def claimSqlFrom (dflt : JValue) (tcs : List ToolCall) : JValue :=
  match lastDbToolCall tcs with
  | none => dflt
  | some tc => queryArgOf tc

/-- The SQL the claims say `sql_query` must equal: the `query` argument of
the last `query_perfbench_db` invocation, or null when no such call
occurred. -/
def claimSql (tcs : List ToolCall) : JValue :=
  claimSqlFrom .jnull tcs

/-! ## Basic lemmas about the `Except` monad and the dict model -/

@[simp]
theorem exceptBind_ok {α β ε : Type} (a : α) (f : α → Except ε β) :
    (Except.ok a >>= f) = f a := rfl

@[simp]
theorem exceptBind_error {α β ε : Type} (e : ε) (f : α → Except ε β) :
    ((Except.error e : Except ε α) >>= f) = Except.error e := rfl

@[simp]
theorem dictLookup_dictSet_self (d : List (String × JValue)) (k : String) (v : JValue) :
    dictLookup (dictSet d k v) k = some v := by
  induction d with
  | nil => simp [dictSet, dictLookup]
  | cons p rest ih =>
    cases hpk : (p.1 == k) with
    | true => simp [dictSet, dictLookup, hpk]
    | false => simp [dictSet, dictLookup, hpk, ih]

theorem dictLookup_dictSet_ne (d : List (String × JValue)) (k v k2)
    (h : k2 ≠ k) : dictLookup (dictSet d k v) k2 = dictLookup d k2 := by
  induction d with
  | nil =>
    have hk : (k == k2) = false := by simp [Ne.symm h]
    simp [dictSet, dictLookup, hk]
  | cons p rest ih =>
    cases hpk : (p.1 == k) with
    | true =>
      have hp1 : p.1 = k := by simpa using hpk
      have hk : (k == k2) = false := by simp [Ne.symm h]
      simp [dictSet, dictLookup, hpk, hk, hp1]
    | false =>
      cases hp2 : (p.1 == k2) with
      | true => simp [dictSet, dictLookup, hpk, hp2]
      | false => simp [dictSet, dictLookup, hpk, hp2, ih]

@[simp]
theorem dictHasKey_dictSet_self (d : List (String × JValue)) (k : String) (v : JValue) :
    dictHasKey (dictSet d k v) k = true := by
  simp [dictHasKey]

theorem dictHasKey_dictSet_ne (d : List (String × JValue)) (k v k2)
    (h : k2 ≠ k) : dictHasKey (dictSet d k v) k2 = dictHasKey d k2 := by
  simp [dictHasKey, dictLookup_dictSet_ne d k v k2 h]

theorem dictLookup_dictRemove_ne (d : List (String × JValue)) (k k2 : String)
    (h : k2 ≠ k) : dictLookup (dictRemove d k) k2 = dictLookup d k2 := by
  induction d with
  | nil => simp [dictRemove]
  | cons p rest ih =>
    cases hpk : (p.1 == k) with
    | true =>
      have hp1 : p.1 = k := by simpa using hpk
      have hp2 : (p.1 == k2) = false := by simp [hp1, Ne.symm h]
      simp [dictRemove, dictLookup, hpk, hp2, ih]
    | false =>
      cases hp2 : (p.1 == k2) with
      | true => simp [dictRemove, dictLookup, hpk, hp2]
      | false => simp [dictRemove, dictLookup, hpk, hp2, ih]

theorem dictHasKey_exists_of_true {d : List (String × JValue)} {k : String}
    (h : dictHasKey d k = true) : ∃ x, dictLookup d k = some x := by
  simpa [dictHasKey, Option.isSome_iff_exists] using h

/-! ## The normalization step on decoded values -/

theorem normalizeDecoded_obj (d : List (String × JValue)) (sql : JValue) :
    normalizeDecoded (.jobj d) sql = .ok (.jobj (normDict d sql)) := by
  unfold normalizeDecoded normDict
  cases hE : dictHasKey d "explanation" with
  | false =>
    simp only [pyContains, hE, exceptBind_ok, Bool.false_eq_true, if_neg, ite_false,
      Bool.and_eq_true, Bool.false_and]
    cases hR : dictHasKey d "response" with
    | false =>
      cases hRes : dictHasKey d "result" with
      | false =>
        simp [pySetItem, pyContains, hR, hRes, dictHasKey_dictSet_ne _ _ _ _ (by decide : ("results" : String) ≠ "response")]
        split <;> rename_i hRS <;> simp [pySetItem, hRS]
      | true =>
        obtain ⟨x, hx⟩ := dictHasKey_exists_of_true hRes
        simp [pyPop, pySetItem, pyContains, hR, hRes, hx,
          dictHasKey_dictSet_ne _ _ _ _ (by decide : ("results" : String) ≠ "response")]
        split <;> rename_i hRS <;> simp [pySetItem, hRS]
    | true =>
      simp [pyContains, hR]
      split <;> rename_i hRS <;> simp [pySetItem, hRS]
  | true =>
    cases hR : dictHasKey d "response" with
    | false =>
      obtain ⟨x, hx⟩ := dictHasKey_exists_of_true hE
      have h1 : dictHasKey (dictSet (dictRemove d "explanation") "response" x) "response" = true :=
        dictHasKey_dictSet_self _ _ _
      simp [pyContains, pyPop, pySetItem, hE, hR, hx, h1,
        dictHasKey_dictSet_ne _ _ _ _ (by decide : ("results" : String) ≠ "response")]
      split <;> rename_i hRS <;> simp [pySetItem, hRS]
    | true =>
      simp [pyContains, hE, hR]
      split <;> rename_i hRS <;> simp [pySetItem, hRS]

theorem normalizeDecoded_nonObj (v : JValue) (sql : JValue)
    (h : ∀ d, v ≠ .jobj d) : ∃ e, normalizeDecoded v sql = .error e := by
  unfold normalizeDecoded
  cases v with
  | jobj d => exact absurd rfl (h d)
  | jnull => exact ⟨.typeError, rfl⟩
  | jbool b => exact ⟨.typeError, rfl⟩
  | jnum n => exact ⟨.typeError, rfl⟩
  | jstr s =>
    cases hE : strContains s "explanation" with
    | true =>
      cases hR : strContains s "response" with
      | false => exact ⟨.attributeError, by simp [pyContains, pyPop, hE, hR]⟩
      | true =>
        cases hRS : strContains s "results" with
        | false => exact ⟨.typeError, by simp [pyContains, pySetItem, hE, hR, hRS]⟩
        | true => exact ⟨.typeError, by simp [pyContains, pySetItem, hE, hR, hRS]⟩
    | false =>
      cases hR : strContains s "response" with
      | false =>
        cases hRes : strContains s "result" with
        | true => exact ⟨.attributeError, by simp [pyContains, pyPop, hE, hR, hRes]⟩
        | false => exact ⟨.typeError, by simp [pyContains, pySetItem, hE, hR, hRes]⟩
      | true =>
        cases hRS : strContains s "results" with
        | false => exact ⟨.typeError, by simp [pyContains, pySetItem, hE, hR, hRS]⟩
        | true => exact ⟨.typeError, by simp [pyContains, pySetItem, hE, hR, hRS]⟩
  | jarr xs =>
    cases hE : xs.any (fun x => match x with | .jstr s => s == "explanation" | _ => false) with
    | true =>
      cases hR : xs.any (fun x => match x with | .jstr s => s == "response" | _ => false) with
      | false => exact ⟨.typeError, by simp [pyContains, pyPop, hE, hR]⟩
      | true =>
        cases hRS : xs.any (fun x => match x with | .jstr s => s == "results" | _ => false) with
        | false => exact ⟨.typeError, by simp [pyContains, pySetItem, hE, hR, hRS]⟩
        | true => exact ⟨.typeError, by simp [pyContains, pySetItem, hE, hR, hRS]⟩
    | false =>
      cases hR : xs.any (fun x => match x with | .jstr s => s == "response" | _ => false) with
      | false =>
        cases hRes : xs.any (fun x => match x with | .jstr s => s == "result" | _ => false) with
        | true => exact ⟨.typeError, by simp [pyContains, pyPop, hE, hR, hRes]⟩
        | false => exact ⟨.typeError, by simp [pyContains, pySetItem, hE, hR, hRes]⟩
      | true =>
        cases hRS : xs.any (fun x => match x with | .jstr s => s == "results" | _ => false) with
        | false => exact ⟨.typeError, by simp [pyContains, pySetItem, hE, hR, hRS]⟩
        | true => exact ⟨.typeError, by simp [pyContains, pySetItem, hE, hR, hRS]⟩

theorem normDict_lookup_sql (d : List (String × JValue)) (sql : JValue) :
    dictLookup (normDict d sql) "sql_query" = some sql := by
  unfold normDict
  exact dictLookup_dictSet_self _ _ _

theorem normDict_hasKey_results (d : List (String × JValue)) (sql : JValue) :
    dictHasKey (normDict d sql) "results" = true := by
  have step3 : ∀ d2 : List (String × JValue),
      dictHasKey (if !dictHasKey d2 "results" then dictSet d2 "results" (.jarr []) else d2)
        "results" = true := by
    intro d2
    split <;> rename_i h3
    · exact dictHasKey_dictSet_self _ _ _
    · simpa using h3
  unfold normDict
  rw [dictHasKey_dictSet_ne _ _ _ _ (by decide : ("results" : String) ≠ "sql_query")]
  exact step3 _

theorem normDict_hasKey_response (d : List (String × JValue)) (sql : JValue) :
    dictHasKey (normDict d sql) "response" = true := by
  have step3 : ∀ d2 : List (String × JValue), dictHasKey d2 "response" = true →
      dictHasKey (if !dictHasKey d2 "results" then dictSet d2 "results" (.jarr []) else d2)
        "response" = true := by
    intro d2 h2
    split
    · rw [dictHasKey_dictSet_ne _ _ _ _ (by decide : ("response" : String) ≠ "results")]
      exact h2
    · exact h2
  have step2 : ∀ d1 : List (String × JValue),
      dictHasKey (if !dictHasKey d1 "response" then
        (if dictHasKey d1 "result"
          then dictSet (dictRemove d1 "result") "response" ((dictLookup d1 "result").getD .jnull)
          else dictSet d1 "response" (.jstr "Query completed successfully."))
        else d1) "response" = true := by
    intro d1
    split <;> rename_i h2
    · split
      · exact dictHasKey_dictSet_self _ _ _
      · exact dictHasKey_dictSet_self _ _ _
    · simpa using h2
  unfold normDict
  rw [dictHasKey_dictSet_ne _ _ _ _ (by decide : ("response" : String) ≠ "sql_query")]
  exact step3 _ (step2 _)

theorem normDict_lookup_response (d : List (String × JValue)) (sql : JValue)
    (h : dictHasKey d "response" = false) :
    dictLookup (normDict d sql) "response" =
      some (if dictHasKey d "explanation" = true then (dictLookup d "explanation").getD .jnull
        else if dictHasKey d "result" = true then (dictLookup d "result").getD .jnull
        else .jstr "Query completed successfully.") := by
  unfold normDict
  rw [dictLookup_dictSet_ne _ _ _ _ (by decide : ("response" : String) ≠ "sql_query")]
  have step3 : ∀ (d2 : List (String × JValue)),
      dictLookup (if !dictHasKey d2 "results" then dictSet d2 "results" (.jarr []) else d2)
        "response" = dictLookup d2 "response" := by
    intro d2
    split
    · exact dictLookup_dictSet_ne _ _ _ _ (by decide : ("response" : String) ≠ "results")
    · rfl
  rw [step3]
  cases hE : dictHasKey d "explanation" with
  | true =>
    simp only [hE, h, Bool.not_false, Bool.and_true, if_true, if_pos rfl]
    have h1 : dictHasKey (dictSet (dictRemove d "explanation") "response"
        ((dictLookup d "explanation").getD .jnull)) "response" = true :=
      dictHasKey_dictSet_self _ _ _
    simp only [h1, Bool.not_true, Bool.false_eq_true, if_neg, ite_false]
    exact dictLookup_dictSet_self _ _ _
  | false =>
    simp only [hE, Bool.false_and, Bool.false_eq_true, if_neg, ite_false, h,
      Bool.not_false, if_true]
    split
    · exact dictLookup_dictSet_self _ _ _
    · exact dictLookup_dictSet_self _ _ _

theorem normDict_lookup_other (d : List (String × JValue)) (sql : JValue) (k : String)
    (h1 : k ≠ "response") (h2 : k ≠ "results") (h3 : k ≠ "sql_query")
    (h4 : k ≠ "explanation") (h5 : k ≠ "result") :
    dictLookup (normDict d sql) k = dictLookup d k := by
  unfold normDict
  rw [dictLookup_dictSet_ne _ _ _ _ h3]
  have step3 : ∀ (d2 : List (String × JValue)),
      dictLookup (if !dictHasKey d2 "results" then dictSet d2 "results" (.jarr []) else d2) k
        = dictLookup d2 k := by
    intro d2
    split
    · exact dictLookup_dictSet_ne _ _ _ _ h2
    · rfl
  rw [step3]
  have step2 : ∀ (d1 : List (String × JValue)),
      dictLookup (if !dictHasKey d1 "response" then
        (if dictHasKey d1 "result"
          then dictSet (dictRemove d1 "result") "response" ((dictLookup d1 "result").getD .jnull)
          else dictSet d1 "response" (.jstr "Query completed successfully."))
        else d1) k = dictLookup d1 k := by
    intro d1
    split
    · split
      · rw [dictLookup_dictSet_ne _ _ _ _ h1, dictLookup_dictRemove_ne _ _ _ h5]
      · rw [dictLookup_dictSet_ne _ _ _ _ h1]
    · rfl
  rw [step2]
  split
  · rw [dictLookup_dictSet_ne _ _ _ _ h1, dictLookup_dictRemove_ne _ _ _ h4]
  · rfl

theorem normalizeReply_ok_shape (fd : Except Unit JValue) (sql : JValue) (out : JValue)
    (h : normalizeReply fd sql = .ok out) :
    jWellFormed out = true ∧ jLookup out "sql_query" = some sql := by
  cases fd with
  | error e =>
    have hout : out = .jobj [("results", .jarr []),
        ("response", .jstr "Error processing results"), ("sql_query", sql)] := by
      simpa [normalizeReply] using h.symm
    subst hout
    exact ⟨rfl, rfl⟩
  | ok v =>
    cases v with
    | jobj d =>
      have hout : out = .jobj (normDict d sql) := by
        have h2 := h
        rw [show normalizeReply (.ok (.jobj d)) sql = normalizeDecoded (.jobj d) sql from rfl,
          normalizeDecoded_obj] at h2
        simpa using h2.symm
      subst hout
      refine ⟨?_, ?_⟩
      · simp [jWellFormed, normDict_hasKey_results, normDict_hasKey_response]
      · simpa [jLookup] using normDict_lookup_sql d sql
    | jnull =>
      obtain ⟨e, he⟩ := normalizeDecoded_nonObj .jnull sql (fun d hd => JValue.noConfusion hd)
      rw [show normalizeReply (.ok .jnull) sql = normalizeDecoded .jnull sql from rfl, he] at h
      cases h
    | jbool b =>
      obtain ⟨e, he⟩ := normalizeDecoded_nonObj (.jbool b) sql (fun d hd => JValue.noConfusion hd)
      rw [show normalizeReply (.ok (.jbool b)) sql = normalizeDecoded (.jbool b) sql from rfl,
        he] at h
      cases h
    | jnum n =>
      obtain ⟨e, he⟩ := normalizeDecoded_nonObj (.jnum n) sql (fun d hd => JValue.noConfusion hd)
      rw [show normalizeReply (.ok (.jnum n)) sql = normalizeDecoded (.jnum n) sql from rfl,
        he] at h
      cases h
    | jstr s =>
      obtain ⟨e, he⟩ := normalizeDecoded_nonObj (.jstr s) sql (fun d hd => JValue.noConfusion hd)
      rw [show normalizeReply (.ok (.jstr s)) sql = normalizeDecoded (.jstr s) sql from rfl,
        he] at h
      cases h
    | jarr xs =>
      obtain ⟨e, he⟩ := normalizeDecoded_nonObj (.jarr xs) sql (fun d hd => JValue.noConfusion hd)
      rw [show normalizeReply (.ok (.jarr xs)) sql = normalizeDecoded (.jarr xs) sql from rfl,
        he] at h
      cases h

/-! ## The tool-dispatch loop -/

theorem mem_of_getLastEq {α : Type} {l : List α} {a : α} (h : l.getLast? = some a) : a ∈ l := by
  induction l with
  | nil => cases h
  | cons x xs ih =>
    cases xs with
    | nil =>
      rw [List.getLast?_singleton] at h
      injection h with h2
      subst h2
      exact List.mem_singleton_self _
    | cons y ys =>
      rw [List.getLast?_cons_cons] at h
      exact List.mem_cons_of_mem _ (ih h)

theorem claimSqlFrom_cons_db (dflt : JValue) (tc : ToolCall) (rest : List ToolCall)
    (h : (tc.name == "query_perfbench_db") = true) :
    claimSqlFrom dflt (tc :: rest) = claimSqlFrom (queryArgOf tc) rest := by
  unfold claimSqlFrom lastDbToolCall
  rw [show (tc :: rest).filter (fun tc2 => tc2.name == "query_perfbench_db")
      = tc :: rest.filter (fun tc2 => tc2.name == "query_perfbench_db") from
    List.filter_cons_of_pos (by simpa using h)]
  cases hf : rest.filter (fun tc2 => tc2.name == "query_perfbench_db") with
  | nil => simp [List.getLast?_singleton]
  | cons b l =>
    rw [List.getLast?_cons_cons]
    cases hg : (b :: l).getLast? with
    | none => exact absurd (List.getLast?_eq_none_iff.mp hg) (by simp)
    | some a => rfl

theorem claimSqlFrom_cons_nondb (dflt : JValue) (tc : ToolCall) (rest : List ToolCall)
    (h : (tc.name == "query_perfbench_db") = false) :
    claimSqlFrom dflt (tc :: rest) = claimSqlFrom dflt rest := by
  unfold claimSqlFrom lastDbToolCall
  rw [List.filter_cons_of_neg (by simp [h])]

theorem query_perfbench_db_ok_str (env : Env) (q : JValue) (v : JValue)
    (h : (query_perfbench_db env q).1 = .ok v) : ∃ s, q = .jstr s := by
  unfold query_perfbench_db at h
  cases hf : env.paths.find? env.fsExists with
  | none => rw [hf] at h; cases h
  | some p =>
    rw [hf] at h
    cases q with
    | jstr s => exact ⟨s, rfl⟩
    | jnull => cases h
    | jbool b => cases h
    | jnum n => cases h
    | jarr xs => cases h
    | jobj d => cases h

theorem dispatchLoop_ok_spec (env : Env) (tcs : List ToolCall) :
    ∀ (sql : JValue) (msgs : List Message) (s : JValue) (m : List Message),
      dispatchLoop env tcs sql msgs = .ok (s, m) →
      s = claimSqlFrom sql tcs ∧
        ∀ tc ∈ tcs, (tc.name == "query_perfbench_db") = true →
          ∃ q, queryArgOf tc = .jstr q := by
  induction tcs with
  | nil =>
    intro sql msgs s m h
    simp only [dispatchLoop, Except.ok.injEq, Prod.mk.injEq] at h
    refine ⟨?_, by simp⟩
    rw [← h.1]
    rfl
  | cons tc rest ih =>
    intro sql msgs s m h
    cases hargs : tc.arguments with
    | error e =>
      simp [dispatchLoop, hargs] at h
    | ok args =>
      cases hname : (tc.name == "query_perfbench_db") with
      | false =>
        simp only [dispatchLoop, hargs, exceptBind_ok, hname, Bool.false_eq_true, if_neg,
          ite_false, call_function] at h
        obtain ⟨h1, h2⟩ := ih sql _ s m h
        refine ⟨?_, ?_⟩
        · rw [h1, claimSqlFrom_cons_nondb _ _ _ hname]
        · intro tc2 htc2 hname2
          rcases List.mem_cons.mp htc2 with rfl | hmem
          · rw [hname2] at hname; cases hname
          · exact h2 tc2 hmem hname2
      | true =>
        cases args with
        | jobj d =>
          cases hk : dictHasKey d "query" with
          | true =>
            obtain ⟨x, hx⟩ := dictHasKey_exists_of_true hk
            cases hall : d.all (fun p => p.1 == "query") with
            | false =>
              simp [dispatchLoop, hargs, hname, call_function, pyContains, pyGetItem,
                hk, hx, hall] at h
            | true =>
              cases hq : (query_perfbench_db env x).1 with
              | error e =>
                simp [dispatchLoop, hargs, hname, call_function, pyContains, pyGetItem,
                  hk, hx, hall, hq] at h
              | ok v =>
                simp only [dispatchLoop, hargs, exceptBind_ok, hname, if_true, ite_true,
                  call_function, pyContains, pyGetItem, hk, hx, hall, Option.getD_some,
                  Bool.and_self, hq] at h
                obtain ⟨h1, h2⟩ := ih x _ s m h
                have hqa : queryArgOf tc = x := by
                  unfold queryArgOf
                  rw [hargs]
                  simp [hx]
                refine ⟨?_, ?_⟩
                · rw [h1, claimSqlFrom_cons_db _ _ _ hname, hqa]
                · intro tc2 htc2 hname2
                  rcases List.mem_cons.mp htc2 with rfl | hmem
                  · obtain ⟨str, hstr⟩ := query_perfbench_db_ok_str env x v hq
                    exact ⟨str, by rw [hqa, hstr]⟩
                  · exact h2 tc2 hmem hname2
          | false =>
            simp [dispatchLoop, hargs, hname, call_function, pyContains, hk] at h
        | jnull =>
          simp [dispatchLoop, hargs, hname, pyContains] at h
        | jbool b =>
          simp [dispatchLoop, hargs, hname, pyContains] at h
        | jnum n =>
          simp [dispatchLoop, hargs, hname, pyContains] at h
        | jstr s2 =>
          cases hc : strContains s2 "query" with
          | true =>
            simp [dispatchLoop, hargs, hname, pyContains, pyGetItem, hc] at h
          | false =>
            simp [dispatchLoop, hargs, hname, call_function, pyContains, hc] at h
        | jarr xs =>
          cases hc : xs.any (fun x => match x with | .jstr s3 => s3 == "query" | _ => false) with
          | true =>
            simp [dispatchLoop, hargs, hname, pyContains, pyGetItem, hc] at h
          | false =>
            simp [dispatchLoop, hargs, hname, call_function, pyContains, hc] at h

/-! ## `dict(zip(columns, row))` for distinct column names -/

theorem dictHasKey_append (a b : List (String × JValue)) (k : String) :
    dictHasKey (a ++ b) k = (dictHasKey a k || dictHasKey b k) := by
  induction a with
  | nil => simp [dictHasKey, dictLookup]
  | cons p rest ih =>
    cases hpk : (p.1 == k) with
    | true => simp [dictHasKey, dictLookup, hpk]
    | false => simpa [dictHasKey, dictLookup, hpk] using ih

theorem dictSet_append_of_not_hasKey (d : List (String × JValue)) (k : String) (v : JValue)
    (h : dictHasKey d k = false) : dictSet d k v = d ++ [(k, v)] := by
  induction d with
  | nil => simp [dictSet]
  | cons p rest ih =>
    cases hpk : (p.1 == k) with
    | true => simp [dictHasKey, dictLookup, hpk] at h
    | false =>
      have hr : dictHasKey rest k = false := by
        simpa [dictHasKey, dictLookup, hpk] using h
      simp [dictSet, hpk, ih hr]

theorem foldl_dictSet_eq_append (ps : List (String × JValue)) :
    ∀ acc : List (String × JValue),
      (∀ p ∈ ps, dictHasKey acc p.1 = false) → (ps.map Prod.fst).Nodup →
      ps.foldl (fun d p => dictSet d p.1 p.2) acc = acc ++ ps := by
  induction ps with
  | nil => intro acc _ _; simp
  | cons p rest ih =>
    intro acc hacc hnodup
    rw [List.map_cons, List.nodup_cons] at hnodup
    obtain ⟨hnot, hnodup2⟩ := hnodup
    have hset : dictSet acc p.1 p.2 = acc ++ [p] := by
      rw [dictSet_append_of_not_hasKey _ _ _ (hacc p (List.mem_cons_self _ _))]
    have hacc2 : ∀ q ∈ rest, dictHasKey (acc ++ [p]) q.1 = false := by
      intro q hq
      rw [dictHasKey_append]
      have h1 : dictHasKey acc q.1 = false := hacc q (List.mem_cons_of_mem _ hq)
      have h2 : dictHasKey [p] q.1 = false := by
        have hne : p.1 ≠ q.1 := by
          intro hEq
          exact hnot (hEq ▸ List.mem_map_of_mem Prod.fst hq)
        simp [dictHasKey, dictLookup, hne]
      simp [h1, h2]
    calc (p :: rest).foldl (fun d q => dictSet d q.1 q.2) acc
        = rest.foldl (fun d q => dictSet d q.1 q.2) (dictSet acc p.1 p.2) := by simp
      _ = (acc ++ [p]) ++ rest := by rw [hset]; exact ih _ hacc2 hnodup2
      _ = acc ++ (p :: rest) := by simp

theorem pyDict_eq_self (ps : List (String × JValue)) (h : (ps.map Prod.fst).Nodup) :
    pyDict ps = ps := by
  have := foldl_dictSet_eq_append ps [] (by intro p _; rfl) h
  simpa [pyDict] using this

/-! ## Destructuring a successful `run_query` -/

theorem run_query_ok_destruct (env : Env) (tcs : List ToolCall) (fd : Except Unit JValue)
    (out : JValue × List Message) (h : run_query env tcs fd = .ok out) :
    ∃ sql msgs, dispatchLoop env tcs .jnull [] = .ok (sql, msgs) ∧
      normalizeReply fd sql = .ok out.1 := by
  unfold run_query at h
  cases hd : dispatchLoop env tcs .jnull [] with
  | error e =>
    rw [hd] at h
    simp only [exceptBind_error] at h
    exact Except.noConfusion h
  | ok sm =>
    obtain ⟨sql0, msgs0⟩ := sm
    rw [hd] at h
    simp only [exceptBind_ok] at h
    cases hn : normalizeReply fd sql0 with
    | error e =>
      rw [hn] at h
      simp only [exceptBind_error] at h
      exact Except.noConfusion h
    | ok resp =>
      rw [hn] at h
      simp only [exceptBind_ok] at h
      injection h with h2
      refine ⟨sql0, msgs0, rfl, ?_⟩
      rw [← h2]
      exact hn

/-! ## Claims about the response normalization (C1, C3, C4, C10) -/

/-- Claim C1, counterexample: a final completion text that decodes to the JSON
number `42` (the text `42`) makes the normalization step raise a `TypeError`
at `"explanation" in response_json` instead of producing a NormalizedResponse:
only `json.JSONDecodeError` is caught, so the normalization is not total. -/
theorem c1_counterexample :
    normalizeReply (.ok (.jnum 42)) (.jstr "SELECT 1") = .error .typeError := rfl

/-- Claim C1, amended: the response normalization of `run_query` never raises
and always yields an object carrying `results` and `response` whenever the
final completion text fails to decode or decodes to a JSON object; it raises
on text that decodes to a non-object JSON value. -/
theorem c1_normalizer_total_on_objects (fd : Except Unit JValue) (sql : JValue)
    (h : ∀ v, fd = .ok v → ∃ d, v = .jobj d) :
    wellFormedResponse (normalizeReply fd sql) = true := by
  cases fd with
  | error e => rfl
  | ok v =>
    obtain ⟨d, rfl⟩ := h v rfl
    rw [show normalizeReply (.ok (.jobj d)) sql = normalizeDecoded (.jobj d) sql from rfl,
      normalizeDecoded_obj]
    simp [wellFormedResponse, jWellFormed, normDict_hasKey_results, normDict_hasKey_response]

/-- Claim C1, witness for the amended theorem at a concrete decoded object. -/
theorem c1_witness :
    wellFormedResponse (normalizeReply (.ok (.jobj [("answer", .jstr "42")])) .jnull) = true :=
  c1_normalizer_total_on_objects (.ok (.jobj [("answer", .jstr "42")])) .jnull
    (fun v hv => ⟨[("answer", .jstr "42")], by injection hv with h2; exact h2.symm⟩)

/-- Claim C3 (confirmed): whenever the final completion text fails to decode as
JSON, a returning `run_query` returns exactly
`{results: [], response: "Error processing results", sql_query: captured-SQL}`,
where the captured SQL is the `query` argument of the last
`query_perfbench_db` tool call, or null when there was none. -/
theorem c3_decode_failure_shape (env : Env) (tcs : List ToolCall) (e : Unit)
    (out : JValue × List Message) (h : run_query env tcs (.error e) = .ok out) :
    out.1 = .jobj [("results", .jarr []), ("response", .jstr "Error processing results"),
      ("sql_query", claimSql tcs)] := by
  obtain ⟨sql, msgs, hd, hn⟩ := run_query_ok_destruct env tcs (.error e) out h
  obtain ⟨h1, _⟩ := dispatchLoop_ok_spec env tcs JValue.jnull [] sql msgs hd
  have hout : out.1 = .jobj [("results", .jarr []),
      ("response", .jstr "Error processing results"), ("sql_query", sql)] := by
    simpa [normalizeReply] using hn.symm
  rw [hout, h1]
  rfl

/-- Claim C3, witness: a concrete request with one database tool call and an
undecodable final reply. -/
theorem c3_witness :
    ((JValue.jobj [("results", .jarr []), ("response", .jstr "Error processing results"),
        ("sql_query", .jstr "SELECT a FROM t")],
      [(⟨"tool", some "1",
          jsonDumps (.jobj [("results", .jarr [.jobj [("a", .jnum 7)]])])⟩ : Message)]).1
      : JValue)
      = .jobj [("results", .jarr []), ("response", .jstr "Error processing results"),
          ("sql_query", claimSql [⟨"1", "query_perfbench_db",
            .ok (.jobj [("query", .jstr "SELECT a FROM t")])⟩])] :=
  c3_decode_failure_shape ⟨fun _ => true, ["p"], fun _ => .ok (some ["a"]) [[.jnum 7]]⟩
    [⟨"1", "query_perfbench_db", .ok (.jobj [("query", .jstr "SELECT a FROM t")])⟩] ()
    (.jobj [("results", .jarr []), ("response", .jstr "Error processing results"),
        ("sql_query", .jstr "SELECT a FROM t")],
      [⟨"tool", some "1", jsonDumps (.jobj [("results", .jarr [.jobj [("a", .jnum 7)]])])⟩])
    (by rfl)

/-- Claim C4 (confirmed): when the decoded reply is an object without a
`response` key, the normalized `response` is the `explanation` value if
present, else the `result` value if present, else the fixed completion
message — `explanation` takes precedence over `result`. -/
theorem c4_alias_precedence (d : List (String × JValue)) (sql : JValue)
    (h : dictHasKey d "response" = false) :
    jLookupE (normalizeDecoded (.jobj d) sql) "response" =
      some (if dictHasKey d "explanation" = true then (dictLookup d "explanation").getD .jnull
        else if dictHasKey d "result" = true then (dictLookup d "result").getD .jnull
        else .jstr "Query completed successfully.") := by
  rw [normalizeDecoded_obj]
  simpa [jLookupE, jLookup] using normDict_lookup_response d sql h

/-- Claim C4, witness: for `{explanation: "x", result: "y"}` with no
`response`, the normalized `response` equals `"x"`. -/
theorem c4_witness :
    jLookupE (normalizeDecoded (.jobj [("explanation", .jstr "x"), ("result", .jstr "y")])
      .jnull) "response" = some (.jstr "x") := by
  have h := c4_alias_precedence [("explanation", .jstr "x"), ("result", .jstr "y")] .jnull
    (by rfl)
  rw [if_pos (show dictHasKey [("explanation", .jstr "x"), ("result", .jstr "y")]
    "explanation" = true from rfl)] at h
  exact h

/-- Claim C10 (confirmed): when the decoded reply is an object, every key other
than `response`, `results`, `sql_query` and the alias keys `explanation` and
`result` passes through normalization with its value unchanged. -/
theorem c10_passthrough (d : List (String × JValue)) (sql : JValue) (k : String)
    (h : k ∉ (["response", "results", "sql_query", "explanation", "result"] : List String)) :
    jLookupE (normalizeDecoded (.jobj d) sql) k = dictLookup d k := by
  have h1 : k ≠ "response" := by intro hEq; exact h (by simp [hEq])
  have h2 : k ≠ "results" := by intro hEq; exact h (by simp [hEq])
  have h3 : k ≠ "sql_query" := by intro hEq; exact h (by simp [hEq])
  have h4 : k ≠ "explanation" := by intro hEq; exact h (by simp [hEq])
  have h5 : k ≠ "result" := by intro hEq; exact h (by simp [hEq])
  rw [normalizeDecoded_obj]
  simpa [jLookupE, jLookup] using normDict_lookup_other d sql k h1 h2 h3 h4 h5

/-- Claim C10, witness: an extra `confidence` field survives normalization
verbatim. -/
theorem c10_witness :
    jLookupE (normalizeDecoded (.jobj [("results", .jarr []), ("response", .jstr "done"),
      ("confidence", .jnum 9)]) .jnull) "confidence"
      = dictLookup [("results", .jarr []), ("response", .jstr "done"),
          ("confidence", .jnum 9)] "confidence" :=
  c10_passthrough _ _ "confidence" (by decide)

/-! ## Claims about dispatch and the adapter (C2, C5, C6, C7, C8, C9) -/

/-- Claim C2 (confirmed): whenever `run_query` returns, the `sql_query` field
of its result equals the `query` argument of the last `query_perfbench_db`
tool invocation (null when there was none), regardless of any `sql_query`
value the decoded final reply carried. -/
theorem c2_sql_query_eq_captured (env : Env) (tcs : List ToolCall) (fd : Except Unit JValue)
    (out : JValue × List Message) (h : run_query env tcs fd = .ok out) :
    jLookup out.1 "sql_query" = some (claimSql tcs) := by
  obtain ⟨sql, msgs, hd, hn⟩ := run_query_ok_destruct env tcs fd out h
  obtain ⟨h1, _⟩ := dispatchLoop_ok_spec env tcs JValue.jnull [] sql msgs hd
  obtain ⟨_, h2⟩ := normalizeReply_ok_shape fd sql out.1 hn
  rw [h2, h1]
  rfl

/-- Claim C2, witness: the model emitted `sql_query: "model lie"` but the
returned `sql_query` is the SQL of the tool call. -/
theorem c2_witness :
    jLookup (JValue.jobj [("sql_query", .jstr "SELECT a FROM t"), ("response", .jstr "hi"),
        ("results", .jarr [])]) "sql_query"
      = some (claimSql [⟨"1", "query_perfbench_db",
          .ok (.jobj [("query", .jstr "SELECT a FROM t")])⟩]) :=
  c2_sql_query_eq_captured ⟨fun _ => true, ["p"], fun _ => .ok (some ["a"]) [[.jnum 7]]⟩
    [⟨"1", "query_perfbench_db", .ok (.jobj [("query", .jstr "SELECT a FROM t")])⟩]
    (.ok (.jobj [("sql_query", .jstr "model lie"), ("response", .jstr "hi")]))
    (.jobj [("sql_query", .jstr "SELECT a FROM t"), ("response", .jstr "hi"),
        ("results", .jarr [])],
      [⟨"tool", some "1", jsonDumps (.jobj [("results", .jarr [.jobj [("a", .jnum 7)]])])⟩])
    (by rfl)

/-- Claim C5 (confirmed): when a database path resolves, `query_perfbench_db`
on a failing SQL string returns the structured `{error: message}` payload
instead of raising, and the connection is released on the success path and
the failure path alike. -/
theorem c5_error_caught_conn_released (env : Env) (q : String)
    (h : (env.paths.find? env.fsExists).isSome = true) :
    (query_perfbench_db env (.jstr q)).2 = ConnState.closed ∧
    ∀ m, env.engine q = .err m →
      (query_perfbench_db env (.jstr q)).1 = .ok (.jobj [("error", .jstr m)]) := by
  obtain ⟨p, hp⟩ := Option.isSome_iff_exists.mp h
  constructor
  · cases henv : env.engine q with
    | ok desc rows => cases desc <;> simp [query_perfbench_db, hp, henv]
    | err m => simp [query_perfbench_db, hp, henv]
  · intro m hm
    simp [query_perfbench_db, hp, hm]

/-- Claim C5, witness: a concrete failing statement. -/
theorem c5_witness :
    (query_perfbench_db ⟨fun _ => true, ["p"], fun _ => .err "no such table: t"⟩
        (.jstr "SELECT x FROM t")).2 = ConnState.closed ∧
    (query_perfbench_db ⟨fun _ => true, ["p"], fun _ => .err "no such table: t"⟩
        (.jstr "SELECT x FROM t")).1 = .ok (.jobj [("error", .jstr "no such table: t")]) :=
  ⟨(c5_error_caught_conn_released ⟨fun _ => true, ["p"], fun _ => .err "no such table: t"⟩
      "SELECT x FROM t" (by rfl)).1,
   (c5_error_caught_conn_released ⟨fun _ => true, ["p"], fun _ => .err "no such table: t"⟩
      "SELECT x FROM t" (by rfl)).2 "no such table: t" rfl⟩

/-- Claim C6, counterexample: a projection with a duplicated column name
(`SELECT a, a`) is collapsed by `dict(zip(columns, row))`, so the record keys
are `["a"]`, not the projected column list `["a", "a"]` (the last value
wins); and a successfully executing statement with no result set
(`cursor.description = None`, e.g. DDL) makes the adapter raise a `TypeError`
instead of returning `{results: rows}`. -/
theorem c6_counterexample :
    (query_perfbench_db ⟨fun _ => true, ["p"],
        fun _ => .ok (some ["a", "a"]) [[.jnum 1, .jnum 2]]⟩
        (.jstr "SELECT a, a FROM perf_data")).1
      = .ok (.jobj [("results", .jarr [.jobj [("a", .jnum 2)]])]) ∧
    (pyDict (["a", "a"].zip [JValue.jnum 1, JValue.jnum 2])).map Prod.fst ≠ ["a", "a"] ∧
    (query_perfbench_db ⟨fun _ => true, ["p"], fun _ => .ok none []⟩
        (.jstr "CREATE TABLE t2 (x INTEGER)")).1 = .error .typeError :=
  ⟨rfl, by decide, rfl⟩

/-- Claim C6, amended: for a SQL string whose execution succeeds with a result
set whose projected column names are pairwise distinct, the adapter returns
`{results: rows}` with one record per fetched row in engine order, each
record keyed by the projected column names in projection order. -/
theorem c6_success_shape (env : Env) (q : String) (cols : List String)
    (rows : List (List JValue))
    (hfs : (env.paths.find? env.fsExists).isSome = true)
    (heng : env.engine q = .ok (some cols) rows)
    (hlen : ∀ r ∈ rows, r.length = cols.length)
    (hnodup : cols.Nodup) :
    (query_perfbench_db env (.jstr q)).1
      = .ok (.jobj [("results", .jarr (rows.map (fun r => .jobj (cols.zip r))))]) ∧
    (rows.map (fun r => JValue.jobj (cols.zip r))).length = rows.length ∧
    ∀ r ∈ rows, (cols.zip r).map Prod.fst = cols := by
  have hkeys : ∀ r ∈ rows, (cols.zip r).map Prod.fst = cols := by
    intro r hr
    exact List.map_fst_zip _ _ (le_of_eq (hlen r hr).symm)
  have hrec : ∀ r ∈ rows, pyDict (cols.zip r) = cols.zip r := by
    intro r hr
    apply pyDict_eq_self
    rw [hkeys r hr]
    exact hnodup
  refine ⟨?_, by simp, hkeys⟩
  obtain ⟨p, hp⟩ := Option.isSome_iff_exists.mp hfs
  have hmap : rows.map (fun r => JValue.jobj (pyDict (cols.zip r)))
      = rows.map (fun r => JValue.jobj (cols.zip r)) :=
    List.map_congr_left (fun r hr => by rw [hrec r hr])
  simp only [query_perfbench_db, hp, heng]
  rw [hmap]

/-- Claim C6, witness: a two-column two-row result set. -/
theorem c6_witness :
    (query_perfbench_db ⟨fun _ => true, ["p"],
        fun _ => .ok (some ["jobid", "mem"]) [[.jstr "j1", .jnum 1], [.jstr "j2", .jnum 2]]⟩
        (.jstr "SELECT jobid, mem FROM perf_data")).1
      = .ok (.jobj [("results", .jarr ([[JValue.jstr "j1", JValue.jnum 1],
          [JValue.jstr "j2", JValue.jnum 2]].map
            (fun r => JValue.jobj (["jobid", "mem"].zip r))))]) ∧
    (["jobid", "mem"].zip [JValue.jstr "j1", JValue.jnum 1]).map Prod.fst
      = ["jobid", "mem"] :=
  ⟨(c6_success_shape ⟨fun _ => true, ["p"],
      fun _ => .ok (some ["jobid", "mem"]) [[.jstr "j1", .jnum 1], [.jstr "j2", .jnum 2]]⟩
      "SELECT jobid, mem FROM perf_data" ["jobid", "mem"]
      [[.jstr "j1", .jnum 1], [.jstr "j2", .jnum 2]]
      (by rfl) rfl (by decide) (by decide)).1,
   (c6_success_shape ⟨fun _ => true, ["p"],
      fun _ => .ok (some ["jobid", "mem"]) [[.jstr "j1", .jnum 1], [.jstr "j2", .jnum 2]]⟩
      "SELECT jobid, mem FROM perf_data" ["jobid", "mem"]
      [[.jstr "j1", .jnum 1], [.jstr "j2", .jnum 2]]
      (by rfl) rfl (by decide) (by decide)).2.2
      [JValue.jstr "j1", JValue.jnum 1] (List.mem_cons_self _ _)⟩

/-- Claim C7, counterexample: when no candidate database path exists, the
startup block prints a warning and still starts the server — there is no
hard failure at startup. -/
theorem c7_counterexample :
    (mainStartup ⟨fun _ => false, possible_paths "/app" "/workdir",
        fun _ => .err "unable to open database file"⟩).dbPath = none ∧
    (mainStartup ⟨fun _ => false, possible_paths "/app" "/workdir",
        fun _ => .err "unable to open database file"⟩).warned = true ∧
    (mainStartup ⟨fun _ => false, possible_paths "/app" "/workdir",
        fun _ => .err "unable to open database file"⟩).serverStarted = true :=
  ⟨rfl, rfl, rfl⟩

/-- Claim C7, amended: the database path is resolved by scanning the fixed
candidate list in priority order on each `query_perfbench_db` call, which
raises `FileNotFoundError` when no candidate exists; the startup check
performs the same scan but only warns and the server starts anyway. -/
theorem c7_per_call_resolution (env : Env) (h : env.paths.find? env.fsExists = none) :
    (∀ q, query_perfbench_db env q = (.error .fileNotFound, .notOpened)) ∧
    (mainStartup env).dbPath = none ∧ (mainStartup env).warned = true ∧
    (mainStartup env).serverStarted = true := by
  refine ⟨?_, ?_, ?_, ?_⟩
  · intro q
    unfold query_perfbench_db
    rw [h]
  · unfold mainStartup
    rw [h]
  · unfold mainStartup
    rw [h]
  · unfold mainStartup
    rw [h]

/-- Claim C7, witness: with no candidate present, a query raises
`FileNotFoundError` while startup merely warns. -/
theorem c7_witness :
    query_perfbench_db ⟨fun _ => false, possible_paths "/app" "/workdir", fun _ => .err "e"⟩
        (.jstr "SELECT 1") = (.error .fileNotFound, .notOpened) ∧
    (mainStartup ⟨fun _ => false, possible_paths "/app" "/workdir",
        fun _ => .err "e"⟩).warned = true :=
  ⟨(c7_per_call_resolution ⟨fun _ => false, possible_paths "/app" "/workdir",
      fun _ => .err "e"⟩ (by rfl)).1 (.jstr "SELECT 1"),
   (c7_per_call_resolution ⟨fun _ => false, possible_paths "/app" "/workdir",
      fun _ => .err "e"⟩ (by rfl)).2.2.1⟩

/-- Claim C8 (confirmed): dispatching any tool name other than
`query_perfbench_db` through `call_function` returns `None` without raising
and with no other effect, and the dispatch loop serializes that `None` as
`"null"` into the appended tool-role message, leaving the captured SQL
unchanged. -/
theorem c8_unknown_tool (env : Env) (tc : ToolCall) (rest : List ToolCall) (sql : JValue)
    (msgs : List Message) (args : JValue)
    (hname : tc.name ≠ "query_perfbench_db") (hargs : tc.arguments = .ok args) :
    call_function env tc.name args = .ok none ∧
    dispatchLoop env (tc :: rest) sql msgs
      = dispatchLoop env rest sql (msgs ++ [⟨"tool", some tc.id, "null"⟩]) := by
  have hb : (tc.name == "query_perfbench_db") = false := beq_eq_false_iff_ne.mpr hname
  constructor
  · simp [call_function, hb]
  · simp [dispatchLoop, hargs, hb, call_function, dumpOptResult]

/-- Claim C8, witness: an unknown tool name dispatched concretely. -/
theorem c8_witness :
    call_function ⟨fun _ => true, ["p"], fun _ => .ok (some ["a"]) []⟩ "get_weather"
        (.jobj []) = .ok none ∧
    dispatchLoop ⟨fun _ => true, ["p"], fun _ => .ok (some ["a"]) []⟩
        [⟨"9", "get_weather", .ok (.jobj [])⟩] .jnull []
      = dispatchLoop ⟨fun _ => true, ["p"], fun _ => .ok (some ["a"]) []⟩ [] .jnull
          ([] ++ [⟨"tool", some "9", "null"⟩]) :=
  c8_unknown_tool ⟨fun _ => true, ["p"], fun _ => .ok (some ["a"]) []⟩
    ⟨"9", "get_weather", .ok (.jobj [])⟩ [] .jnull [] (.jobj []) (by decide) rfl

/-- Claim C9, counterexample: (a) the decoded reply `{"response": null}` is
returned with a null `response`, so `response` is not always non-null; (b) a
request whose single tool call names an unknown tool is dispatched (a tool
was invoked) yet `sql_query` is null, so null `sql_query` does not imply
that no tool was invoked. -/
theorem c9_counterexample :
    run_query ⟨fun _ => true, ["p"], fun _ => .ok (some ["c"]) []⟩ []
        (.ok (.jobj [("response", .jnull)]))
      = .ok (.jobj [("response", .jnull), ("results", .jarr []), ("sql_query", .jnull)], []) ∧
    jLookup (.jobj [("response", .jnull), ("results", .jarr []), ("sql_query", .jnull)])
        "response" = some .jnull ∧
    run_query ⟨fun _ => true, ["p"], fun _ => .ok (some ["c"]) []⟩
        [⟨"1", "foo", .ok (.jobj [])⟩] (.ok (.jobj []))
      = .ok (.jobj [("response", .jstr "Query completed successfully."),
          ("results", .jarr []), ("sql_query", .jnull)], [⟨"tool", some "1", "null"⟩]) ∧
    jLookup (.jobj [("response", .jstr "Query completed successfully."),
        ("results", .jarr []), ("sql_query", .jnull)]) "sql_query" = some .jnull :=
  ⟨rfl, rfl, rfl, rfl⟩

/-- Claim C9, amended: every result a returning `run_query` produces is an
object carrying `results` and `response` (`response` may be null only when
the decoded reply supplied null for it), and its `sql_query` is null only
when no `query_perfbench_db` tool call was dispatched. -/
theorem c9_amended_invariants (env : Env) (tcs : List ToolCall) (fd : Except Unit JValue)
    (out : JValue × List Message) (h : run_query env tcs fd = .ok out) :
    jWellFormed out.1 = true ∧
    (jLookup out.1 "sql_query" = some .jnull → lastDbToolCall tcs = none) := by
  obtain ⟨sql, msgs, hd, hn⟩ := run_query_ok_destruct env tcs fd out h
  obtain ⟨h1, h2⟩ := dispatchLoop_ok_spec env tcs JValue.jnull [] sql msgs hd
  obtain ⟨hwf, hsql⟩ := normalizeReply_ok_shape fd sql out.1 hn
  refine ⟨hwf, ?_⟩
  intro hnull
  rw [hsql] at hnull
  injection hnull with hnull2
  cases hlast : lastDbToolCall tcs with
  | none => rfl
  | some tc0 =>
    exfalso
    unfold lastDbToolCall at hlast
    have hmem := mem_of_getLastEq hlast
    obtain ⟨hmem2, hbeq⟩ := List.mem_filter.mp hmem
    obtain ⟨q0, hq0⟩ := h2 tc0 hmem2 hbeq
    have hs : sql = queryArgOf tc0 := by
      rw [h1]
      unfold claimSqlFrom lastDbToolCall
      rw [hlast]
    rw [hnull2, hq0] at hs
    exact JValue.noConfusion hs

/-- Claim C9, witness: the amended invariants at a concrete request with a
database tool call. -/
theorem c9_witness :
    jWellFormed (JValue.jobj [("sql_query", .jstr "SELECT a FROM t"),
      ("response", .jstr "hi"), ("results", .jarr [])]) = true :=
  (c9_amended_invariants ⟨fun _ => true, ["p"], fun _ => .ok (some ["a"]) [[.jnum 7]]⟩
    [⟨"1", "query_perfbench_db", .ok (.jobj [("query", .jstr "SELECT a FROM t")])⟩]
    (.ok (.jobj [("sql_query", .jstr "model lie"), ("response", .jstr "hi")]))
    (.jobj [("sql_query", .jstr "SELECT a FROM t"), ("response", .jstr "hi"),
        ("results", .jarr [])],
      [⟨"tool", some "1", jsonDumps (.jobj [("results", .jarr [.jobj [("a", .jnum 7)]])])⟩])
    (by rfl)).1
